import Mathlib

/-!
# Verification of the `datahub` connection-lifecycle manager

Shallow embedding of the Go package `datahub` (the `Hub` connection
pool/transaction façade).  The embedded functions mirror, statement by
statement, the Go source: `NewHub`, `getConnFromPool`, `getConn`,
`closeConn`, `Close` (file `kxdb.go`) and `BeginTx`, `Commit`, `Rollback`
(file `hub_tx.go`).

External collaborators (`dbflex.IConnection`, `dbflex.DbPooling`,
`dbflex.PoolItem`) are modelled as records of scripted behaviour: a
connection carries the results its methods would return; the pool's
`Get()` response is passed in as an explicit oracle argument.  Go's
mutex operations are modelled away (the embedding is sequential; the
mutex only guards the list mutation).  A Go run-time panic (nil function
call, out-of-range slice index) is modelled as `none` / a dedicated
constructor, so that "does not panic" is a provable proposition.
-/

namespace Datahub

/-- Mock of `dbflex.IConnection`: the identity of the connection plus the
scripted results of its methods and its closed flag. -/
structure Conn where
  id : Nat
  supportTx : Bool
  /-- `none` means `BeginTx()` succeeds, `some msg` that it fails with `msg`. -/
  beginTxErr : Option String
  /-- `none` means `Commit()` succeeds, `some msg` that it fails with `msg`. -/
  commitErr : Option String
  /-- `none` means `RollBack()` succeeds, `some msg` that it fails with `msg`. -/
  rollbackErr : Option String
  isTxFlag : Bool
  closed : Bool
deriving Repr, DecidableEq

/-- `conn.Close()`. -/
def connClose (c : Conn) : Conn := { c with closed := true }

/-- `conn.SupportTx()`. -/
def connSupportTx (c : Conn) : Bool := c.supportTx

/-- `conn.BeginTx()`: the connection afterwards and the returned error. -/
def connBeginTx (c : Conn) : Conn × Option String := (c, c.beginTxErr)

/-- `conn.Commit()`: the connection afterwards and the returned error. -/
def connCommit (c : Conn) : Conn × Option String := (c, c.commitErr)

/-- `conn.RollBack()`: the connection afterwards and the returned error. -/
def connRollBack (c : Conn) : Conn × Option String := (c, c.rollbackErr)

/-- Mock of `dbflex.PoolItem`: a lease on one physical connection.
`Release()` is pool-internal; the Hub only references, tracks and
releases items, so identity plus the wrapped connection suffices. -/
structure PoolItem where
  id : Nat
  conn : Conn
deriving Repr, DecidableEq

/-- `time.Second` in nanoseconds (Go `time.Duration` is an int64 count
of nanoseconds). -/
def second : Int := 1000000000

/-- Mock of `dbflex.DbPooling`: the configuration the Hub writes into it. -/
structure DbPooling where
  size : Int
  timeout : Int
  autoClose : Int
  autoRelease : Int
  closed : Bool
deriving Repr, DecidableEq

/-- `dbflex.NewDbPooling(size, fn)`: fresh pool, zero-valued durations. -/
def newDbPooling (size : Int) : DbPooling :=
  { size := size, timeout := 0, autoClose := 0, autoRelease := 0, closed := false }

/-- Result of one call to the connection factory `connFn`, or of an
acquisition: a connection or a Go `error` string. -/
inductive ConnRes where
  | ok (c : Conn)
  | err (msg : String)
deriving Repr, DecidableEq

/-- Result of `pool.Get()`, supplied as an oracle for the external pool. -/
inductive PoolGetRes where
  | ok (it : PoolItem)
  | err (msg : String)
deriving Repr, DecidableEq

/-- The `Hub` struct of `kxdb.go`.  `connFn` is `none` when the Go field
is nil, otherwise the (stateless) scripted result of calling the factory.
The `mtx` and `_log` fields are omitted: the embedding is sequential and
no claim mentions logging. -/
structure Hub where
  connFn : Option ConnRes
  usePool : Bool
  pool : Option DbPooling
  poolSize : Int
  poolItems : List PoolItem
  txconn : Option Conn
deriving Repr, DecidableEq

/-- `NewHub(fn, usePool, poolsize)`: when `usePool` is set the pool is
built eagerly with the given size, `Timeout = 7s`, `AutoClose = 5s`. -/
def NewHub (fn : Option ConnRes) (usePool : Bool) (poolsize : Int) : Hub :=
  let h : Hub :=
    { connFn := fn, usePool := usePool, pool := none, poolSize := poolsize,
      poolItems := [], txconn := none }
  if usePool then
    { h with pool := some { newDbPooling poolsize with
        timeout := 7 * second, autoClose := 5 * second } }
  else h

/-- `Hub.getConnFromPool`.  `poolGet` is the external `h.pool.Get()`
response.  Returns the mutated hub, the lease index and the connection
result. -/
def getConnFromPool (h : Hub) (poolGet : PoolGetRes) : Hub × Int × ConnRes :=
  match h.txconn with
  | some c => (h, -1, .ok c)
  | none =>
    let h1 := if h.poolSize = 0 then { h with poolSize := 100 } else h
    let h2 :=
      if h1.pool = none then
        { h1 with pool := some { newDbPooling h1.poolSize with
            timeout := 90 * second, autoClose := 5 * second } }
      else h1
    match poolGet with
    | .err e => (h2, -1, .err ("unable get connection from pool. " ++ e))
    | .ok it =>
      let h3 := { h2 with poolItems := h2.poolItems ++ [it] }
      (h3, (h3.poolItems.length : Int) - 1, .ok it.conn)

/-- `Hub.getConn`.  Checks, in source order: pinned transaction
connection, nil factory, pool mode, direct factory call. -/
def getConn (h : Hub) (poolGet : PoolGetRes) : Hub × Int × ConnRes :=
  match h.txconn with
  | some c => (h, -1, .ok c)
  | none =>
    match h.connFn with
    | none => (h, -1, .err "connection fn is not yet defined")
    | some fnRes =>
      if h.usePool then getConnFromPool h poolGet
      else
        match fnRes with
        | .err e => (h, -1, .err ("unable to open connection. " ++ e))
        | .ok c => (h, -1, .ok c)

/-- The removal step of `Hub.closeConn`: the guarded
`h.poolItems[idx].Release()` followed by the head / tail / middle splice.
`none` models the Go run-time panic on a negative slice index; otherwise
the new list and the released item (if any) are returned. -/
def removeLease (items : List PoolItem) (idx : Int) :
    Option (List PoolItem × Option PoolItem) :=
  if idx < (items.length : Int) ∧ idx ≠ -1 then
    -- `h.poolItems[idx]` panics in Go when `idx` is negative (the guard
    -- already gives `idx < len`); `-1` was excluded by the guard.
    if 0 ≤ idx then
      match items[idx.toNat]? with
      | some released =>
        let i := idx.toNat
        let newItems :=
          if items.length = 0 then []
          else if idx = 0 then items.tail
          else if idx = (items.length : Int) - 1 then items.take i
          else items.take i ++ items.drop (i + 1)
        some (newItems, some released)
      | none => none
    else
      none
  else
    some (items, none)

/-- `Hub.closeConn(idx, conn)`.  Returns `none` on a run-time panic;
otherwise the hub afterwards, the passed connection afterwards (closed
when `usePool` is false) and the released PoolItem, if any. -/
def closeConn (h : Hub) (idx : Int) (conn : Conn) :
    Option (Hub × Conn × Option PoolItem) :=
  match h.txconn with
  | some _ => some (h, conn, none)
  | none =>
    let conn1 := if !h.usePool then connClose conn else conn
    match removeLease h.poolItems idx with
    | none => none
    | some (items, rel) => some ({ h with poolItems := items }, conn1, rel)

/-- `Hub.Close`: `if h.usePool { h.pool.Close() }`.  The boolean records
whether `pool.Close()` was invoked (the nil-pool dereference inside that
call belongs to the external library and is not modelled further). -/
def hubClose (h : Hub) : Hub × Bool :=
  if h.usePool then
    ({ h with pool := h.pool.map (fun p => { p with closed := true }) }, true)
  else (h, false)

/-- `Hub.GetClassicConnection`: `return h.connFn()`.  `none` when the
factory field is nil (the call would be a nil-function panic). -/
def GetClassicConnection (h : Hub) : Option ConnRes := h.connFn

/-- The hub built by `BeginTx` on success: `ht := new(Hub); ht.txconn = conn`
(all other fields keep their Go zero values). -/
def txHandle (c : Conn) : Hub :=
  { connFn := none, usePool := false, pool := none, poolSize := 0,
    poolItems := [], txconn := some c }

/-- Result of `Hub.BeginTx`: on failure the error string plus the final
state of the factory-opened connection when one was opened (`none` when
the factory itself failed). -/
inductive TxRes where
  | ok (handle : Hub) (connAfter : Conn)
  | fail (msg : String) (connAfter : Option Conn)
deriving Repr, DecidableEq

/-- `Hub.BeginTx` (file `hub_tx.go`).  Outer `none` models the panic of
calling a nil `connFn` inside `GetClassicConnection`. -/
def BeginTx (h : Hub) : Option TxRes :=
  match GetClassicConnection h with
  | none => none
  | some (.err e) => some (.fail ("fail BeginTransaction: " ++ e) none)
  | some (.ok conn) =>
    if !(connSupportTx conn) then
      some (.fail "fail BeginTransaction: connection is not supporting transaction"
        (some (connClose conn)))
    else
      match connBeginTx conn with
      | (conn1, some msg) => some (.fail ("fail BeginTransaction: " ++ msg) (some conn1))
      | (conn1, none) => some (.ok (txHandle conn1) conn1)

/-- `Hub.Commit` (file `hub_tx.go`).  The deferred block closes and
clears `txconn` whenever it is non-nil, after the commit attempt.
Returns the hub afterwards, the final state of the formerly pinned
connection (when there was one) and the returned error. -/
def Commit (h : Hub) : Hub × Option Conn × Option String :=
  match h.txconn with
  | none => (h, none, some "fail Commit: handler has no transactional connection")
  | some c =>
    let step := connCommit c
    let c2 := connClose step.1
    ({ h with txconn := none }, some c2,
      match step.2 with
      | some msg => some ("fail Commit: " ++ msg)
      | none => none)

/-- `Hub.Rollback` (file `hub_tx.go`), symmetric to `Commit`. -/
def Rollback (h : Hub) : Hub × Option Conn × Option String :=
  match h.txconn with
  | none => (h, none, some "fail Rollback: handler has no transactional connection")
  | some c =>
    let step := connRollBack c
    let c2 := connClose step.1
    ({ h with txconn := none }, some c2,
      match step.2 with
      | some msg => some ("fail Rollback: " ++ msg)
      | none => none)

/-- `Hub.IsTx`. -/
def IsTx (h : Hub) : Bool :=
  match h.txconn with
  | some c => c.isTxFlag
  | none => false

/-! ## Concrete sample values, used by counterexamples and witnesses -/

/-- A sample open connection supporting transactions, all methods succeed. -/
def cSample : Conn :=
  { id := 0, supportTx := true, beginTxErr := none, commitErr := none,
    rollbackErr := none, isTxFlag := true, closed := false }

/-- A second sample connection. -/
def cSample2 : Conn := { cSample with id := 1 }

/-- A third sample connection. -/
def cSample3 : Conn := { cSample with id := 2 }

/-- Sample pool items wrapping the sample connections. -/
def itA : PoolItem := { id := 10, conn := cSample }

/-- Second sample pool item. -/
def itB : PoolItem := { id := 11, conn := cSample2 }

/-- Third sample pool item. -/
def itC : PoolItem := { id := 12, conn := cSample3 }

/-- A pooled hub with one outstanding lease. -/
def hubPooled1 : Hub :=
  { connFn := some (.ok cSample), usePool := true, pool := none,
    poolSize := 1, poolItems := [itA], txconn := none }

/-- A pooled hub with three outstanding leases. -/
def hubPooled3 : Hub :=
  { connFn := some (.ok cSample), usePool := true, pool := none,
    poolSize := 3, poolItems := [itA, itB, itC], txconn := none }

/-! ## Helper lemmas about the removal step -/

/-- At a currently valid index the guarded removal releases exactly the
item at that index and splices it out, keeping the rest in order. -/
theorem removeLease_valid (items : List PoolItem) (i : Nat)
    (hlt : i < items.length) :
    removeLease items (i : Int) =
      some (items.take i ++ items.drop (i + 1), some (items.get ⟨i, hlt⟩)) := by
  unfold removeLease
  have h1 : ((i : Int) < (items.length : Int) ∧ (i : Int) ≠ -1) :=
    ⟨by exact_mod_cast hlt, by omega⟩
  rw [if_pos h1, if_pos (Int.natCast_nonneg i)]
  simp only [Int.toNat_natCast, List.getElem?_eq_getElem hlt, List.get_eq_getElem]
  have hne : items.length ≠ 0 := by omega
  rw [if_neg hne]
  by_cases hi0 : (i : Int) = 0
  · have hi0n : i = 0 := by exact_mod_cast hi0
    subst hi0n
    rw [if_pos hi0]
    simp [List.drop_one]
  · rw [if_neg hi0]
    by_cases hil : (i : Int) = (items.length : Int) - 1
    · rw [if_pos hil]
      have hdrop : items.drop (i + 1) = [] := List.drop_eq_nil_of_le (by omega)
      rw [hdrop, List.append_nil]
    · rw [if_neg hil]

/-- At index `-1` or at an index at or beyond the end of the list the
guarded removal leaves the list untouched and releases nothing. -/
theorem removeLease_invalid (items : List PoolItem) (idx : Int)
    (hinv : idx = -1 ∨ (items.length : Int) ≤ idx) :
    removeLease items idx = some (items, none) := by
  unfold removeLease
  rw [if_neg (by omega)]

/-! ## Claim theorems -/

/-- C1: on a pooled, non-pinned hub, a release at a currently valid
lease index `i` (so `0 ≤ i < length`, and `i ≠ -1`) calls `Release` on
exactly the PoolItem at position `i` and removes it; the resulting list
`take i ++ drop (i+1)` is all the other items in their original relative
order, with no entry duplicated. -/
theorem closeConn_valid_removes_exactly_one (h : Hub) (conn : Conn) (i : Nat)
    (htx : h.txconn = none) (hup : h.usePool = true)
    (hlt : i < h.poolItems.length) :
    closeConn h (i : Int) conn =
      some ({ h with poolItems := h.poolItems.take i ++ h.poolItems.drop (i + 1) },
        conn, some (h.poolItems.get ⟨i, hlt⟩)) := by
  unfold closeConn
  rw [htx, hup, removeLease_valid h.poolItems i hlt]
  rfl

/-- Witness for C1: a hub with three outstanding leases, released at
index 1: item `itB` is released, `[itA, itC]` survive in order. -/
theorem closeConn_valid_removes_exactly_one_witness :
    hubPooled3.txconn = none ∧ hubPooled3.usePool = true ∧
      1 < hubPooled3.poolItems.length ∧
      closeConn hubPooled3 (1 : Nat) cSample =
        some ({ hubPooled3 with
          poolItems := hubPooled3.poolItems.take 1 ++ hubPooled3.poolItems.drop 2 },
          cSample, some (hubPooled3.poolItems.get ⟨1, by decide⟩)) :=
  ⟨rfl, rfl, by decide,
    closeConn_valid_removes_exactly_one hubPooled3 cSample 1 rfl rfl (by decide)⟩

/-- C2 counterexample: the claim says release at any invalid lease index
(negative, or past the end) never faults; but at index `-2` on a hub with
one outstanding lease, the guard `idx < len && idx != -1` passes and
`poolItems[-2]` is an out-of-bounds slice access — a run-time panic,
modelled as `none`. -/
theorem closeConn_negative_index_panics :
    closeConn hubPooled1 (-2) cSample = none := by decide

/-- C2 (amended): on a pooled, non-pinned hub, a release at an invalid
lease index that acquire can actually have handed out — `-1`, or an
index at or past the current end of the list (already removed, or stale
after prior removals shrank the list) — is a safe no-op: no panic, no
out-of-bounds access, list unchanged.  (An index `≤ -2` would fault, but
acquire never returns one.) -/
theorem closeConn_invalid_index_noop (h : Hub) (conn : Conn) (idx : Int)
    (htx : h.txconn = none) (hup : h.usePool = true)
    (hinv : idx = -1 ∨ (h.poolItems.length : Int) ≤ idx) :
    closeConn h idx conn = some (h, conn, none) := by
  obtain ⟨fn, up, pl, ps, items, tx⟩ := h
  cases htx
  cases hup
  unfold closeConn
  rw [removeLease_invalid _ idx hinv]
  rfl

/-- Witness for C2 (amended): releasing index `-1` and a stale index `1`
on a pooled hub with one outstanding lease both leave it unchanged. -/
theorem closeConn_invalid_index_noop_witness :
    hubPooled1.txconn = none ∧ hubPooled1.usePool = true ∧
      closeConn hubPooled1 (-1) cSample = some (hubPooled1, cSample, none) ∧
      closeConn hubPooled1 1 cSample = some (hubPooled1, cSample, none) :=
  ⟨rfl, rfl,
    closeConn_invalid_index_noop hubPooled1 cSample (-1) rfl rfl (Or.inl rfl),
    closeConn_invalid_index_noop hubPooled1 cSample 1 rfl rfl (Or.inr (by decide))⟩

/-- C3: on a transaction-pinned hub every acquire returns
`(-1, pinned connection, nil)` — for every pool oracle response, so with
no pool interaction, no factory call and no state change (hence the same
connection instance on every repeated call until Commit/Rollback) — and
every release is a no-op that leaves the hub, the passed connection and
the pinned connection untouched (in particular open). -/
theorem pinned_acquire_release (h : Hub) (c : Conn) (poolGet : PoolGetRes)
    (idx : Int) (conn : Conn) (hc : h.txconn = some c) :
    getConn h poolGet = (h, -1, .ok c) ∧
      closeConn h idx conn = some (h, conn, none) := by
  constructor
  · unfold getConn
    rw [hc]
  · unfold closeConn
    rw [hc]

/-- Witness for C3: the transaction handle pinned to `cSample` returns
the pinned connection from acquire even when the pool oracle would fail,
and release at index `0` changes nothing. -/
theorem pinned_acquire_release_witness :
    (txHandle cSample).txconn = some cSample ∧
      getConn (txHandle cSample) (.err "pool empty") =
        (txHandle cSample, -1, .ok cSample) ∧
      closeConn (txHandle cSample) 0 cSample2 =
        some (txHandle cSample, cSample2, none) :=
  ⟨rfl,
    (pinned_acquire_release (txHandle cSample) cSample (.err "pool empty")
      0 cSample2 rfl).1,
    (pinned_acquire_release (txHandle cSample) cSample (.err "pool empty")
      0 cSample2 rfl).2⟩

/-- C4 counterexample: the claim says a nil `connFn` fails with the
configuration error before any other check, regardless of transaction
pinning; but `getConn` tests `txconn` first, so the transaction handle
(whose `connFn` IS nil) acquires the pinned connection with no error. -/
theorem getConn_pinned_beats_nil_connFn :
    (txHandle cSample).connFn = none ∧
      getConn (txHandle cSample) (.err "pool empty") =
        (txHandle cSample, -1, .ok cSample) ∧
      ∀ msg, (getConn (txHandle cSample) (.err "pool empty")).2.2 ≠ .err msg := by
  refine ⟨rfl, rfl, ?_⟩
  intro msg hmsg
  simp [getConn, txHandle] at hmsg

/-- C4 (amended): on a hub that is not transaction-pinned, a nil
`connFn` makes every acquire fail with the configuration error
`connection fn is not yet defined` before any pool interaction or
factory call (for every pool oracle response, with no state change);
on a transaction-pinned hub the pinned connection is returned instead,
the `txconn` check preceding the `connFn` check. -/
theorem getConn_nil_connFn_configuration_error (h : Hub) (poolGet : PoolGetRes)
    (htx : h.txconn = none) (hfn : h.connFn = none) :
    getConn h poolGet = (h, -1, .err "connection fn is not yet defined") := by
  unfold getConn
  rw [htx, hfn]

/-- Witness for C4 (amended): a freshly constructed pool-less hub with
no factory fails with the configuration error. -/
theorem getConn_nil_connFn_configuration_error_witness :
    (NewHub none false 0).txconn = none ∧ (NewHub none false 0).connFn = none ∧
      getConn (NewHub none false 0) (.ok itA) =
        (NewHub none false 0, -1, .err "connection fn is not yet defined") :=
  ⟨rfl, rfl, getConn_nil_connFn_configuration_error (NewHub none false 0) (.ok itA) rfl rfl⟩

/-- A pooled hub whose pool field is still nil and whose configured size
is zero: the shape on which the lazy construction path actually runs. -/
def hubLazy : Hub :=
  { connFn := some (.ok cSample), usePool := true, pool := none,
    poolSize := 0, poolItems := [], txconn := none }

/-- C5 counterexample: the claim says a Hub constructed with
`usePool = true` has a nil pool until the first pooled acquisition, with
configured size 0 defaulting to 100; but `NewHub` builds the pool
eagerly, before any acquisition, and with size 0, not 100. -/
theorem newHub_builds_pool_eagerly :
    (NewHub (some (.ok cSample)) true 0).pool =
      some { size := 0, timeout := 7 * second, autoClose := 5 * second,
             autoRelease := 0, closed := false } ∧
    (NewHub (some (.ok cSample)) true 0).pool ≠ none := by
  constructor
  · rfl
  · intro hcontra
    simp [NewHub] at hcontra

/-- C5 (amended): `NewHub` with `usePool = true` constructs the Pool
eagerly at construction, with size exactly the configured poolsize (even
0) and the 7s/5s defaults; the lazy construction — size 0 defaulting to
100, 90s/5s defaults — happens at a pooled acquisition only when the
pool field is still nil at that point. -/
theorem pool_eager_at_newHub_lazy_at_acquire (fn : Option ConnRes) (ps : Int)
    (h : Hub) (poolGet : PoolGetRes)
    (htx : h.txconn = none) (hpool : h.pool = none) (hps : h.poolSize = 0) :
    (NewHub fn true ps).pool =
      some { size := ps, timeout := 7 * second, autoClose := 5 * second,
             autoRelease := 0, closed := false } ∧
    ((getConnFromPool h poolGet).1).pool =
      some { size := 100, timeout := 90 * second, autoClose := 5 * second,
             autoRelease := 0, closed := false } ∧
    ((getConnFromPool h poolGet).1).poolSize = 100 := by
  obtain ⟨fn2, up, pl, ps2, items, tx⟩ := h
  cases htx
  cases hpool
  cases hps
  refine ⟨rfl, ?_, ?_⟩ <;> cases poolGet <;> rfl

/-- Witness for C5 (amended): on `hubLazy` (nil pool, size 0) the first
pooled acquisition builds a size-100 pool. -/
theorem pool_eager_at_newHub_lazy_at_acquire_witness :
    hubLazy.txconn = none ∧ hubLazy.pool = none ∧ hubLazy.poolSize = 0 ∧
    ((NewHub (some (.ok cSample)) true 5).pool =
        some { size := 5, timeout := 7 * second, autoClose := 5 * second,
               autoRelease := 0, closed := false } ∧
      ((getConnFromPool hubLazy (.ok itA)).1).pool =
        some { size := 100, timeout := 90 * second, autoClose := 5 * second,
               autoRelease := 0, closed := false } ∧
      ((getConnFromPool hubLazy (.ok itA)).1).poolSize = 100) :=
  ⟨rfl, rfl, rfl,
    pool_eager_at_newHub_lazy_at_acquire (some (.ok cSample)) 5 hubLazy (.ok itA)
      rfl rfl rfl⟩

/-- C6: on a pinned hub, Commit and Rollback both clear `txconn` to nil
and close the formerly pinned connection, whether the underlying
commit/rollback succeeds (`commitErr`/`rollbackErr` = none, error result
none) or fails (error result the wrapped message) — the cleanup does not
depend on the outcome. -/
theorem commit_rollback_guaranteed_cleanup (h : Hub) (c : Conn)
    (hc : h.txconn = some c) :
    Commit h = ({ h with txconn := none }, some { c with closed := true },
        Option.map (fun s => "fail Commit: " ++ s) c.commitErr) ∧
    Rollback h = ({ h with txconn := none }, some { c with closed := true },
        Option.map (fun s => "fail Rollback: " ++ s) c.rollbackErr) := by
  obtain ⟨fn, up, pl, ps, items, tx⟩ := h
  cases hc
  obtain ⟨cid, cst, cbe, cce, cre, citx, ccl⟩ := c
  constructor
  · cases cce <;> rfl
  · cases cre <;> rfl

/-- A connection whose commit and rollback both fail. -/
def cFinalizeFails : Conn :=
  { cSample with commitErr := some "disk full", rollbackErr := some "link down" }

/-- Witness for C6: on a handle pinned to a connection whose commit
fails, Commit returns the wrapped error yet still closes and clears the
connection; same shape for Rollback. -/
theorem commit_rollback_guaranteed_cleanup_witness :
    (txHandle cFinalizeFails).txconn = some cFinalizeFails ∧
    (Commit (txHandle cFinalizeFails) =
        ({ txHandle cFinalizeFails with txconn := none },
          some { cFinalizeFails with closed := true },
          Option.map (fun s => "fail Commit: " ++ s) cFinalizeFails.commitErr) ∧
      Rollback (txHandle cFinalizeFails) =
        ({ txHandle cFinalizeFails with txconn := none },
          some { cFinalizeFails with closed := true },
          Option.map (fun s => "fail Rollback: " ++ s) cFinalizeFails.rollbackErr)) :=
  ⟨rfl, commit_rollback_guaranteed_cleanup (txHandle cFinalizeFails) cFinalizeFails rfl⟩

/-- C7: after one Commit or Rollback on a pinned handle the pinned
connection is cleared (`txconn = none`), so every subsequent Commit or
Rollback — all four orders — returns the NoActiveTransaction error; the
embedded functions are total, so no panic occurs, and the second call
leaves the handle unchanged. -/
theorem second_finalize_no_active_transaction (h : Hub) (c : Conn)
    (hc : h.txconn = some c) :
    (Commit h).1.txconn = none ∧ (Rollback h).1.txconn = none ∧
    Commit (Commit h).1 = ((Commit h).1, none,
      some "fail Commit: handler has no transactional connection") ∧
    Rollback (Commit h).1 = ((Commit h).1, none,
      some "fail Rollback: handler has no transactional connection") ∧
    Commit (Rollback h).1 = ((Rollback h).1, none,
      some "fail Commit: handler has no transactional connection") ∧
    Rollback (Rollback h).1 = ((Rollback h).1, none,
      some "fail Rollback: handler has no transactional connection") := by
  obtain ⟨fn, up, pl, ps, items, tx⟩ := h
  cases hc
  exact ⟨rfl, rfl, rfl, rfl, rfl, rfl⟩

/-- Witness for C7: double finalization on the handle pinned to
`cSample` fails with the NoActiveTransaction error in all four orders. -/
theorem second_finalize_no_active_transaction_witness :
    (txHandle cSample).txconn = some cSample ∧
    ((Commit (txHandle cSample)).1.txconn = none ∧
      (Rollback (txHandle cSample)).1.txconn = none ∧
      Commit (Commit (txHandle cSample)).1 = ((Commit (txHandle cSample)).1, none,
        some "fail Commit: handler has no transactional connection") ∧
      Rollback (Commit (txHandle cSample)).1 = ((Commit (txHandle cSample)).1, none,
        some "fail Rollback: handler has no transactional connection") ∧
      Commit (Rollback (txHandle cSample)).1 = ((Rollback (txHandle cSample)).1, none,
        some "fail Commit: handler has no transactional connection") ∧
      Rollback (Rollback (txHandle cSample)).1 = ((Rollback (txHandle cSample)).1, none,
        some "fail Rollback: handler has no transactional connection")) :=
  ⟨rfl, second_finalize_no_active_transaction (txHandle cSample) cSample rfl⟩

/-- A transaction-capable connection whose begin-transaction call fails. -/
def cBeginFails : Conn := { cSample with beginTxErr := some "begin refused" }

/-- A direct-mode hub whose factory yields `cBeginFails`. -/
def hubBeginFails : Hub := NewHub (some (.ok cBeginFails)) false 0

/-- C8: when the factory-opened connection supports transactions but its
`BeginTx()` fails, `Hub.BeginTx` returns the wrapped error while the
opened connection's final state still has `closed = false`: the code
never calls `Close()` on this path, so the connection is leaked —
contradicting the documented no-leak guarantee (the adjacent
unsupported-transaction branch does close the connection first). -/
theorem beginTx_start_failure_leaks_connection :
    BeginTx hubBeginFails =
      some (.fail "fail BeginTransaction: begin refused" (some cBeginFails)) ∧
    cBeginFails.closed = false := ⟨rfl, rfl⟩

/-- C9: when the factory-opened connection reports no transaction
support, `BeginTx` closes that connection first (`closed = true` in its
final state) and then fails with the TransactionUnsupported error,
returning no handle (the `.fail` constructor carries none). -/
theorem beginTx_unsupported_closes_connection (h : Hub) (c : Conn)
    (hfn : h.connFn = some (.ok c)) (hsup : c.supportTx = false) :
    BeginTx h =
      some (.fail "fail BeginTransaction: connection is not supporting transaction"
        (some { c with closed := true })) := by
  obtain ⟨fn, up, pl, ps, items, tx⟩ := h
  cases hfn
  obtain ⟨cid, cst, cbe, cce, cre, citx, ccl⟩ := c
  cases hsup
  rfl

/-- A connection that reports no transaction support. -/
def cNoTx : Conn := { cSample with supportTx := false }

/-- Witness for C9: a hub whose factory yields `cNoTx` fails BeginTx
with the unsupported-transaction error and the connection closed. -/
theorem beginTx_unsupported_closes_connection_witness :
    (NewHub (some (.ok cNoTx)) false 0).connFn = some (.ok cNoTx) ∧
    cNoTx.supportTx = false ∧
    BeginTx (NewHub (some (.ok cNoTx)) false 0) =
      some (.fail "fail BeginTransaction: connection is not supporting transaction"
        (some { cNoTx with closed := true })) :=
  ⟨rfl, rfl,
    beginTx_unsupported_closes_connection (NewHub (some (.ok cNoTx)) false 0) cNoTx rfl rfl⟩

/-- C10: a successful `BeginTx` returns the handle `txHandle c`, which
has `usePool = false` and a nil pool; `Close` on that handle changes
nothing — the hub is returned unchanged (the pinned connection still
present, in its original open state) and `pool.Close` is never invoked,
so the pinned connection stays open until Commit or Rollback. -/
theorem beginTx_handle_close_is_noop (h : Hub) (c : Conn)
    (hfn : h.connFn = some (.ok c)) (hsup : c.supportTx = true)
    (hbe : c.beginTxErr = none) :
    BeginTx h = some (.ok (txHandle c) c) ∧
    (txHandle c).usePool = false ∧ (txHandle c).pool = none ∧
    hubClose (txHandle c) = (txHandle c, false) ∧
    (txHandle c).txconn = some c := by
  obtain ⟨fn, up, pl, ps, items, tx⟩ := h
  cases hfn
  obtain ⟨cid, cst, cbe, cce, cre, citx, ccl⟩ := c
  cases hsup
  cases hbe
  exact ⟨rfl, rfl, rfl, rfl, rfl⟩

/-- Witness for C10: the handle obtained from a successful BeginTx on a
direct-mode hub; Close on it is a no-op and the pinned connection stays. -/
theorem beginTx_handle_close_is_noop_witness :
    (NewHub (some (.ok cSample)) false 0).connFn = some (.ok cSample) ∧
    cSample.supportTx = true ∧ cSample.beginTxErr = none ∧
    (BeginTx (NewHub (some (.ok cSample)) false 0) =
        some (.ok (txHandle cSample) cSample) ∧
      (txHandle cSample).usePool = false ∧ (txHandle cSample).pool = none ∧
      hubClose (txHandle cSample) = (txHandle cSample, false) ∧
      (txHandle cSample).txconn = some cSample) :=
  ⟨rfl, rfl, rfl,
    beginTx_handle_close_is_noop (NewHub (some (.ok cSample)) false 0) cSample rfl rfl rfl⟩

end Datahub
